import Mathlib

/-!
Verification of the node lifecycle and virtual-interface/table-provisioning
subsystem of the PodNet repository (mininet/node.py), as a shallow embedding
in Lean 4.

The embedding models the Python dictionaries (`self.ports`, `self.intfs`,
`self.nameToIntf`, `self.effIntfs`, `self.vrfDict`, `self.tableVrfDict`,
`self.vrfVniDict`, `self.bdIntfDict`, `self.daemonConfigs`) as association
lists with Python-dict semantics: updating an existing key keeps its position
(insertion order preserved), a new key is appended at the end.  Iteration over
a dict (`.items()`, `.values()`) is iteration over the association list in
insertion order, exactly as in CPython 3.7+.

Interface objects (class `Intf` from the link module) are mutable and shared
between several dictionaries; we model them by an interface store mapping
numeric interface identities to interface data, the dictionaries holding
identities.  Shell commands (`self.cmd(...)`) and the container collaborator
are external effects, excluded from the core per the specification.
-/

/-- Python-dict lookup on an association list: first (unique) binding wins. -/
def dictGet? {α β : Type} [DecidableEq α] : List (α × β) → α → Option β
  | [], _ => none
  | (k', v') :: t, k => if k' = k then some v' else dictGet? t k

/-- Python-dict assignment `d[k] = v`: update in place if the key exists,
otherwise append the new binding at the end (CPython insertion order). -/
def dictSet {α β : Type} [DecidableEq α] : List (α × β) → α → β → List (α × β)
  | [], k, v => [(k, v)]
  | (k', v') :: t, k, v => if k' = k then (k, v) :: t else (k', v') :: dictSet t k v

/-- Python `del d[k]` / `d.pop(k)`: remove the binding of `k` if present. -/
def dictDel {α β : Type} [DecidableEq α] : List (α × β) → α → List (α × β)
  | [], _ => []
  | (k', v') :: t, k => if k' = k then t else (k', v') :: dictDel t k

/-- In-place modification of the value bound to `k` (e.g. Python
`d[k].append(x)`).  If the key is absent CPython raises `KeyError`; the
states reached in this development always have the key present, so the
absent case is modelled as a no-op. -/
def dictModify {α β : Type} [DecidableEq α] : List (α × β) → α → (β → β) → List (α × β)
  | [], _, _ => []
  | (k', v') :: t, k, f => if k' = k then (k, f v') :: t else (k', v') :: dictModify t k f

/-- Python `max` over a list of naturals (the list is nonempty wherever the
source calls `max`). -/
def listMax (l : List Nat) : Nat := l.foldr max 0

/-- Data carried by one `Intf` object.  The `Intf` class itself lives in the
link module, which is not part of the selected core; the fields and their
defaults follow the specification: an interface has a name, an optional MAC
and IP, a VRF tag defaulting to `"default"`, and an optional BDI tag assigned
when the interface is attached to an overlay. -/
structure IntfData where
  name : String
  mac : Option String := none
  ip : Option String := none
  vrf : String := "default"
  bdi : Option Nat := none
  deriving Repr, DecidableEq

/-- The state of one router node (`Node` / `DockerRouter` / `DockerP4Router`
in mininet/node.py), restricted to the fields the core reads and writes.
Interface identities are naturals into `intfStore`. -/
structure Router where
  name : String := "r1"
  portBase : Nat := 0
  nextIntfId : Nat := 0
  intfStore : List (Nat × IntfData) := []
  /-- `self.intfs`: dict of port numbers to interfaces. -/
  intfs : List (Nat × Nat) := []
  /-- `self.ports`: dict of interfaces to port numbers. -/
  ports : List (Nat × Nat) := []
  /-- `self.nameToIntf`: dict of interface names to interfaces. -/
  nameToIntf : List (String × Nat) := []
  /-- `self.effIntfs`: effective interfaces, name to port. -/
  effIntfs : List (String × Nat) := []
  /-- `self.vrfDict`: VRF names to IDs; `default` seeded with 0. -/
  vrfDict : List (String × Nat) := [("default", 0)]
  /-- `self.tableVrfDict`: Linux routing tables to VRF IDs; seeded 254, 255. -/
  tableVrfDict : List (Nat × Nat) := [(254, 0), (255, 0)]
  /-- `self.vrfVniDict`: VRF name to (optional L3 VNI, list of L2 VNIs). -/
  vrfVniDict : List (String × (Option Nat × List Nat)) := [("default", (none, []))]
  /-- `self.bdIntfDict`: BDI to member interfaces of the broadcast domain. -/
  bdIntfDict : List (Nat × List Nat) := []
  /-- `self.aclConfig`: list of 7-field ACL entries. -/
  aclConfig : List (List String) := []
  /-- `self.daemonConfigs`: per-protocol ordered configuration lines. -/
  daemonConfigs : List (String × List String) :=
    [("zebra", []), ("bgpd", []), ("ospfd", []), ("ospf6d", []),
     ("ripd", []), ("ripngd", []), ("isisd", []), ("bfdd", [])]
  /-- `self.generalConfig`: protocol-independent configuration lines. -/
  generalConfig : List String := []
  loopbackIP : String := ""
  cpu_input_port : Nat := 80
  cpu_output_port : Nat := 81
  deriving Repr, DecidableEq

/-- Name of an interface identity (`intf.name`); the identity is always in
the store when the source reads the attribute. -/
def Router.intfName (s : Router) (i : Nat) : String :=
  match dictGet? s.intfStore i with
  | some d => d.name
  | none => ""

/-- `Node.newPort`: `max(self.ports.values()) + 1` when `self.ports` is
nonempty, else `self.portBase`. -/
def Node.newPort (s : Router) : Nat :=
  if s.ports.length > 0 then listMax (s.ports.map Prod.snd) + 1 else s.portBase

/-- `Node.addIntf(intf, port=None)`: allocate a port with `newPort` when none
is given, then record the bidirectional port-interface maps and the
name-to-interface map.  (The namespace relocation side effect is external.) -/
def Node.addIntf (s : Router) (intf : Nat) (port : Option Nat) : Router :=
  let p := match port with
    | none => Node.newPort s
    | some q => q
  { s with intfs := dictSet s.intfs p intf,
           ports := dictSet s.ports intf p,
           nameToIntf := dictSet s.nameToIntf (s.intfName intf) intf }

/-- `Node.delIntf(intf)`: remove the three bindings when the interface has a
port; no-op otherwise. -/
def Node.delIntf (s : Router) (intf : Nat) : Router :=
  match dictGet? s.ports intf with
  | some port =>
      { s with intfs := dictDel s.intfs port,
               ports := dictDel s.ports intf,
               nameToIntf := dictDel s.nameToIntf (s.intfName intf) }
  | none => s

/-- Run a sequence of `addIntf` calls that all omit the port argument,
returning the final state and the ports assigned, in call order. -/
def autoAddSeq (s : Router) : List Nat → Router × List Nat
  | [] => (s, [])
  | i :: rest =>
      let p := Node.newPort s
      let s' := Node.addIntf s i none
      let (s'', ps) := autoAddSeq s' rest
      (s'', p :: ps)

-- Basic association-list lemmas.

theorem dictGet?_dictSet_self {α β : Type} [DecidableEq α] (d : List (α × β)) (k : α) (v : β) :
    dictGet? (dictSet d k v) k = some v := by
  induction d with
  | nil => simp [dictSet, dictGet?]
  | cons hd t ih =>
      obtain ⟨k', v'⟩ := hd
      by_cases h : k' = k
      · simp [dictSet, dictGet?, h]
      · simp [dictSet, dictGet?, h, ih]

theorem dictGet?_dictSet_ne {α β : Type} [DecidableEq α] (d : List (α × β)) (k k' : α) (v : β)
    (h : k ≠ k') : dictGet? (dictSet d k v) k' = dictGet? d k' := by
  induction d with
  | nil => simp [dictSet, dictGet?, h]
  | cons hd t ih =>
      obtain ⟨a, b⟩ := hd
      by_cases ha : a = k
      · subst ha
        simp [dictSet, dictGet?, h]
      · simp only [dictSet, if_neg ha]
        by_cases hb : a = k'
        · simp [dictGet?, hb]
        · simp [dictGet?, hb, ih]

theorem mem_values_dictSet {α β : Type} [DecidableEq α] (d : List (α × β)) (k : α) (v w : β)
    (h : w ∈ (dictSet d k v).map Prod.snd) : w = v ∨ w ∈ d.map Prod.snd := by
  induction d with
  | nil => simpa [dictSet] using h
  | cons hd t ih =>
      obtain ⟨a, b⟩ := hd
      by_cases ha : a = k
      · simp only [dictSet, if_pos ha, List.map_cons, List.mem_cons] at h
        rcases h with h | h
        · exact Or.inl h
        · exact Or.inr (by simp [h])
      · simp only [dictSet, if_neg ha, List.map_cons, List.mem_cons] at h
        rcases h with h | h
        · exact Or.inr (by simp [h])
        · rcases ih h with h' | h'
          · exact Or.inl h'
          · exact Or.inr (by simp [h'])

theorem value_mem_dictSet {α β : Type} [DecidableEq α] (d : List (α × β)) (k : α) (v : β) :
    v ∈ (dictSet d k v).map Prod.snd := by
  induction d with
  | nil => simp [dictSet]
  | cons hd t ih =>
      obtain ⟨a, b⟩ := hd
      by_cases ha : a = k
      · simp [dictSet, ha]
      · simp only [dictSet, if_neg ha, List.map_cons, List.mem_cons]
        exact Or.inr ih

theorem dictSet_ne_nil {α β : Type} [DecidableEq α] (d : List (α × β)) (k : α) (v : β) :
    dictSet d k v ≠ [] := by
  cases d with
  | nil => simp [dictSet]
  | cons hd t =>
      obtain ⟨a, b⟩ := hd
      by_cases ha : a = k <;> simp [dictSet, ha]

theorem le_listMax_of_mem {l : List Nat} {x : Nat} (h : x ∈ l) : x ≤ listMax l := by
  induction l with
  | nil => cases h
  | cons a t ih =>
      rcases List.mem_cons.mp h with h | h
      · subst h; exact le_max_left _ _
      · exact le_trans (ih h) (le_max_right _ _)

/-- Every recorded port is strictly below the next port `newPort` returns. -/
theorem port_lt_newPort (s : Router) {v : Nat} (h : v ∈ s.ports.map Prod.snd) :
    v < Node.newPort s := by
  unfold Node.newPort
  have hne : s.ports ≠ [] := by
    intro hnil
    rw [hnil] at h
    simp at h
  have hlen : s.ports.length > 0 := List.length_pos.mpr hne
  rw [if_pos hlen]
  exact Nat.lt_succ_of_le (le_listMax_of_mem h)

/-- Adding an interface with an automatic port strictly increases `newPort`. -/
theorem newPort_lt_newPort_addIntf (s : Router) (i : Nat) :
    Node.newPort s < Node.newPort (Node.addIntf s i none) := by
  set p := Node.newPort s with hp
  have hmem : p ∈ (Node.addIntf s i none).ports.map Prod.snd := by
    simp only [Node.addIntf]
    exact value_mem_dictSet s.ports i p
  exact port_lt_newPort _ hmem

/-- Every port assigned later in an automatic-add sequence is at least the
current `newPort`. -/
theorem newPort_le_autoAddSeq (s : Router) (ids : List Nat) :
    ∀ q ∈ (autoAddSeq s ids).2, Node.newPort s ≤ q := by
  induction ids generalizing s with
  | nil => intro q hq; simp [autoAddSeq] at hq
  | cons i rest ih =>
      intro q hq
      simp only [autoAddSeq] at hq
      rcases List.mem_cons.mp hq with h | h
      · exact le_of_eq h.symm
      · exact le_trans (le_of_lt (newPort_lt_newPort_addIntf s i)) (ih _ _ h)

/-- C1: in any sequence of `addIntf` calls that omit the port argument, the
assigned ports are pairwise unique and strictly increasing in call order;
`newPort()` returns `max(existing ports) + 1` when at least one port is
assigned and the class's port base when the node has no ports. -/
theorem C1_auto_ports_strictly_increasing (s : Router) (ids : List Nat) :
    List.Pairwise (fun a b => a < b) (autoAddSeq s ids).2 ∧
    (s.ports ≠ [] → Node.newPort s = listMax (s.ports.map Prod.snd) + 1) ∧
    (s.ports = [] → Node.newPort s = s.portBase) := by
  refine ⟨?_, ?_, ?_⟩
  · induction ids generalizing s with
    | nil => simp [autoAddSeq]
    | cons i rest ih =>
        simp only [autoAddSeq]
        refine List.pairwise_cons.mpr ⟨?_, ih _⟩
        intro q hq
        have h1 := newPort_le_autoAddSeq (Node.addIntf s i none) rest q hq
        exact lt_of_lt_of_le (newPort_lt_newPort_addIntf s i) h1
  · intro h
    unfold Node.newPort
    rw [if_pos (List.length_pos.mpr h)]
  · intro h
    unfold Node.newPort
    rw [h]
    simp

/-- Witness for C1 at concrete inputs: three automatic adds on a fresh node
assign strictly increasing ports, and `newPort` evaluates as stated both on a
node with a port and on an empty node. -/
theorem C1_auto_ports_strictly_increasing_witness :
    List.Pairwise (fun a b => a < b) (autoAddSeq { } [10, 11, 12]).2 ∧
    Node.newPort { ports := [(0, 4)] } = listMax ([(0, 4)].map Prod.snd) + 1 ∧
    Node.newPort ({ } : Router) = ({ } : Router).portBase := by
  refine ⟨(C1_auto_ports_strictly_increasing { } [10, 11, 12]).1, ?_, ?_⟩
  · exact (C1_auto_ports_strictly_increasing { ports := [(0, 4)] } []).2.1 (by decide)
  · exact (C1_auto_ports_strictly_increasing { } []).2.2 rfl

/-- C10: `addIntf` with an explicit port `p` already held by a different
interface `old` raises no error and does not remove `old`: afterwards the
port-to-interface map sends `p` to the new interface while the
interface-to-port map still sends both `old` and the new interface to `p`. -/
theorem C10_explicit_port_collision (s : Router) (old new p : Nat)
    (hold : dictGet? s.ports old = some p) (hne : old ≠ new) :
    dictGet? (Node.addIntf s new (some p)).intfs p = some new ∧
    dictGet? (Node.addIntf s new (some p)).ports old = some p ∧
    dictGet? (Node.addIntf s new (some p)).ports new = some p := by
  refine ⟨?_, ?_, ?_⟩
  · simp only [Node.addIntf]
    exact dictGet?_dictSet_self _ _ _
  · simp only [Node.addIntf]
    rw [dictGet?_dictSet_ne _ new old p (fun h => hne h.symm)]
    exact hold
  · simp only [Node.addIntf]
    exact dictGet?_dictSet_self _ _ _

/-- Witness for C10: on a node where interface 0 holds port 7, adding
interface 1 with explicit port 7 leaves both interfaces mapped to port 7. -/
theorem C10_explicit_port_collision_witness :
    dictGet? (Node.addIntf { ports := [(0, 7)], intfs := [(7, 0)] } 1 (some 7)).intfs 7 = some 1 ∧
    dictGet? (Node.addIntf { ports := [(0, 7)], intfs := [(7, 0)] } 1 (some 7)).ports 0 = some 7 ∧
    dictGet? (Node.addIntf { ports := [(0, 7)], intfs := [(7, 0)] } 1 (some 7)).ports 1 = some 7 :=
  C10_explicit_port_collision { ports := [(0, 7)], intfs := [(7, 0)] } 0 1 7 (by decide) (by decide)

/-- A Python value passed for the `protocol` / `dstPort` / `srcPort`
arguments of `addACLConfig`: either a string (used verbatim) or an integer
(formatted with a mask).  The source tests `isinstance(x, str)` and compares
`protocol == 6` / `protocol == 17`, which is false for strings. -/
inductive PyVal where
  | str : String → PyVal
  | int : Nat → PyVal
  deriving Repr, DecidableEq

/-- `x if isinstance(x, str) else "{}&&&<mask>".format(x)`. -/
def fmtMasked (v : PyVal) (mask : String) : String :=
  match v with
  | .str s => s
  | .int n => toString n ++ "&&&" ++ mask

/-- Body of `DockerP4Router.addACLConfig`: builds the 7-field ACL entry
`[dstAddr, srcAddr, protocol, tcpDstPort, tcpSrcPort, udpDstPort, udpSrcPort]`
starting from all-wildcard `"0&&&0"` fields.  Port arguments are only
consulted when `protocol == 6` (TCP slots 3, 4) or `protocol == 17`
(UDP slots 5, 6). -/
def aclEntry (dstAddr srcAddr : Option String) (protocol dstPort srcPort : Option PyVal) :
    List String :=
  let e0 := List.replicate 7 "0&&&0"
  let e1 := match dstAddr with
    | some a => e0.set 0 a
    | none => e0
  let e2 := match srcAddr with
    | some a => e1.set 1 a
    | none => e1
  let e3 := match protocol with
    | some p => e2.set 2 (fmtMasked p "0xff")
    | none => e2
  if protocol = some (.int 6) then
    let e4 := match dstPort with
      | some p => e3.set 3 (fmtMasked p "0xffff")
      | none => e3
    match srcPort with
    | some p => e4.set 4 (fmtMasked p "0xffff")
    | none => e4
  else if protocol = some (.int 17) then
    let e4 := match dstPort with
      | some p => e3.set 5 (fmtMasked p "0xffff")
      | none => e3
    match srcPort with
    | some p => e4.set 6 (fmtMasked p "0xffff")
    | none => e4
  else e3

/-- `DockerP4Router.addACLConfig`: appends the built entry to
`self.aclConfig`. -/
def DockerP4Router.addACLConfig (s : Router) (dstAddr srcAddr : Option String)
    (protocol dstPort srcPort : Option PyVal) : Router :=
  { s with aclConfig := s.aclConfig ++ [aclEntry dstAddr srcAddr protocol dstPort srcPort] }

/-- `DockerP4Router.setupACL`: one `table_add Filter_ACL acl_drop` line per
accumulated ACL entry. -/
def setupACLLines (s : Router) : List String :=
  s.aclConfig.map (fun entry =>
    "table_add Filter_ACL acl_drop " ++ String.intercalate " " entry ++ " => 1\n")

theorem strMask_ff (a : String) : a ++ "&&&" ++ "0xff" = a ++ "&&&0xff" := by
  have h : ("&&&" : String) ++ "0xff" = "&&&0xff" := rfl
  rw [String.append_assoc, h]

theorem strMask_ffff (a : String) : a ++ "&&&" ++ "0xffff" = a ++ "&&&0xffff" := by
  have h : ("&&&" : String) ++ "0xffff" = "&&&0xffff" := rfl
  rw [String.append_assoc, h]

/-- C2: `addACLConfig(dstAddr="10.0.0.1", protocol=6, dstPort=80)` appends
exactly `["10.0.0.1", "0&&&0", "6&&&0xff", "80&&&0xffff", "0&&&0", "0&&&0",
"0&&&0"]`; in general unset fields stay the wildcard `"0&&&0"`, an integer
protocol is encoded `value&&&0xff`, integer ports `value&&&0xffff`, and
protocol 6 routes the port arguments to slots 3 and 4 while protocol 17
routes them to slots 5 and 6. -/
theorem C2_acl_entry_encoding (s : Router) :
    (DockerP4Router.addACLConfig s (some "10.0.0.1") none (some (.int 6)) (some (.int 80))
        none).aclConfig
      = s.aclConfig ++
        [["10.0.0.1", "0&&&0", "6&&&0xff", "80&&&0xffff", "0&&&0", "0&&&0", "0&&&0"]] ∧
    (∀ srcA proto dP sP, (aclEntry none srcA proto dP sP).get? 0 = some "0&&&0") ∧
    (∀ dstA proto dP sP, (aclEntry dstA none proto dP sP).get? 1 = some "0&&&0") ∧
    (∀ dstA srcA dP sP, (aclEntry dstA srcA none dP sP).get? 2 = some "0&&&0") ∧
    (∀ dstA srcA n dP sP,
      (aclEntry dstA srcA (some (.int n)) dP sP).get? 2 = some (toString n ++ "&&&0xff")) ∧
    (∀ dstA srcA d sP,
      (aclEntry dstA srcA (some (.int 6)) (some (.int d)) sP).get? 3
        = some (toString d ++ "&&&0xffff")) ∧
    (∀ dstA srcA dP c,
      (aclEntry dstA srcA (some (.int 6)) dP (some (.int c))).get? 4
        = some (toString c ++ "&&&0xffff")) ∧
    (∀ dstA srcA d sP,
      (aclEntry dstA srcA (some (.int 17)) (some (.int d)) sP).get? 5
        = some (toString d ++ "&&&0xffff")) ∧
    (∀ dstA srcA dP c,
      (aclEntry dstA srcA (some (.int 17)) dP (some (.int c))).get? 6
        = some (toString c ++ "&&&0xffff")) := by
  refine ⟨rfl, ?_, ?_, ?_, ?_, ?_, ?_, ?_, ?_⟩
  · intro srcA proto dP sP
    rcases proto with _ | p
    · rcases srcA with _ | b <;> simp [aclEntry]
    · rcases p with t | n
      · rcases srcA with _ | b <;> rcases dP with _ | d <;> rcases sP with _ | c <;>
          simp [aclEntry, fmtMasked]
      · by_cases h6 : n = 6 <;> by_cases h17 : n = 17 <;>
          rcases srcA with _ | b <;> rcases dP with _ | d <;> rcases sP with _ | c <;>
          simp_all [aclEntry, fmtMasked]
  · intro dstA proto dP sP
    rcases proto with _ | p
    · rcases dstA with _ | a <;> simp [aclEntry]
    · rcases p with t | n
      · rcases dstA with _ | a <;> rcases dP with _ | d <;> rcases sP with _ | c <;>
          simp [aclEntry, fmtMasked]
      · by_cases h6 : n = 6 <;> by_cases h17 : n = 17 <;>
          rcases dstA with _ | a <;> rcases dP with _ | d <;> rcases sP with _ | c <;>
          simp_all [aclEntry, fmtMasked]
  · intro dstA srcA dP sP
    rcases dstA with _ | a <;> rcases srcA with _ | b <;>
      simp [aclEntry, fmtMasked]
  · intro dstA srcA n dP sP
    rcases dstA with _ | a <;> rcases srcA with _ | b <;>
      rcases dP with _ | d <;> rcases sP with _ | c <;>
      by_cases h6 : n = 6 <;> by_cases h17 : n = 17 <;>
      simp_all [aclEntry, fmtMasked, strMask_ff]
  · intro dstA srcA d sP
    rcases dstA with _ | a <;> rcases srcA with _ | b <;>
      rcases sP with _ | c <;> simp [aclEntry, fmtMasked, strMask_ffff]
  · intro dstA srcA dP c
    rcases dstA with _ | a <;> rcases srcA with _ | b <;>
      rcases dP with _ | d <;> simp [aclEntry, fmtMasked, strMask_ffff]
  · intro dstA srcA d sP
    rcases dstA with _ | a <;> rcases srcA with _ | b <;>
      rcases sP with _ | c <;> simp [aclEntry, fmtMasked, strMask_ffff]
  · intro dstA srcA dP c
    rcases dstA with _ | a <;> rcases srcA with _ | b <;>
      rcases dP with _ | d <;> simp [aclEntry, fmtMasked, strMask_ffff]

/-- C9: a call to `addACLConfig` with a protocol other than integer 6 and
integer 17 (including protocol omitted, or a string protocol) ignores any
supplied port arguments: all four port fields of the appended 7-tuple stay
`"0&&&0"`. -/
theorem C9_ports_ignored_for_other_protocols (s : Router) (dstA srcA : Option String)
    (proto dP sP : Option PyVal)
    (h6 : proto ≠ some (.int 6)) (h17 : proto ≠ some (.int 17)) :
    (DockerP4Router.addACLConfig s dstA srcA proto dP sP).aclConfig
      = s.aclConfig ++ [aclEntry dstA srcA proto dP sP] ∧
    (aclEntry dstA srcA proto dP sP).get? 3 = some "0&&&0" ∧
    (aclEntry dstA srcA proto dP sP).get? 4 = some "0&&&0" ∧
    (aclEntry dstA srcA proto dP sP).get? 5 = some "0&&&0" ∧
    (aclEntry dstA srcA proto dP sP).get? 6 = some "0&&&0" := by
  refine ⟨rfl, ?_, ?_, ?_, ?_⟩ <;>
    · unfold aclEntry
      rw [if_neg h6, if_neg h17]
      rcases dstA with _ | a <;> rcases srcA with _ | b <;> rcases proto with _ | p <;>
        simp [fmtMasked]

/-- Witness for C9: protocol 1 (ICMP) with both ports supplied leaves all
four port fields wildcarded. -/
theorem C9_ports_ignored_for_other_protocols_witness :
    (DockerP4Router.addACLConfig { } (some "10.0.0.1") none (some (.int 1)) (some (.int 80))
        (some (.int 443))).aclConfig
      = ({ } : Router).aclConfig ++
        [aclEntry (some "10.0.0.1") none (some (.int 1)) (some (.int 80)) (some (.int 443))] ∧
    (aclEntry (some "10.0.0.1") none (some (.int 1)) (some (.int 80)) (some (.int 443))).get? 3
      = some "0&&&0" ∧
    (aclEntry (some "10.0.0.1") none (some (.int 1)) (some (.int 80)) (some (.int 443))).get? 4
      = some "0&&&0" ∧
    (aclEntry (some "10.0.0.1") none (some (.int 1)) (some (.int 80)) (some (.int 443))).get? 5
      = some "0&&&0" ∧
    (aclEntry (some "10.0.0.1") none (some (.int 1)) (some (.int 80)) (some (.int 443))).get? 6
      = some "0&&&0" :=
  C9_ports_ignored_for_other_protocols { } (some "10.0.0.1") none (some (.int 1))
    (some (.int 80)) (some (.int 443)) (by decide) (by decide)

/-- `DockerRouter.addVRF(name, tableId)`: `self.vrfDict[name] = tableId`,
`self.tableVrfDict[int(tableId)] = int(tableId)`,
`self.vrfVniDict[name] = [None, []]` (shell link/bridge commands are
external effects).  Note the source performs plain dict assignments: an
existing name is silently overwritten. -/
def DockerRouter.addVRF (s : Router) (vrfName : String) (tableId : Nat) : Router :=
  { s with vrfDict := dictSet s.vrfDict vrfName tableId,
           tableVrfDict := dictSet s.tableVrfDict tableId tableId,
           vrfVniDict := dictSet s.vrfVniDict vrfName (none, []) }

/-- `DockerP4Router.setupVrfTable`: one `"<tableId> <vrfId>\n"` line per
entry of `self.tableVrfDict`, in dict iteration (= insertion) order. -/
def setupVrfTableLines (s : Router) : List String :=
  s.tableVrfDict.map (fun e => toString e.1 ++ " " ++ toString e.2 ++ "\n")

/-- `DockerP4Router.setupIntfTable`: one `"<intfName> <port>\n"` line per
entry of `self.effIntfs`, in insertion order. -/
def setupIntfTableLines (s : Router) : List String :=
  s.effIntfs.map (fun e => e.1 ++ " " ++ toString e.2 ++ "\n")

/-- Insertion step of a stable insertion sort on key-value pairs by key. -/
def insertByKey (e : Nat × Nat) : List (Nat × Nat) → List (Nat × Nat)
  | [] => [e]
  | x :: t => if e.1 ≤ x.1 then e :: x :: t else x :: insertByKey e t

/-- Stable insertion sort of key-value pairs by key. -/
def sortByKey : List (Nat × Nat) → List (Nat × Nat)
  | [] => []
  | x :: t => insertByKey x (sortByKey t)

/-- What the spec's words ask of `setupVrfTable` for claim C6: the mapping
written sorted by key.  This definition follows the spec sentence, not the
source; it is compared against `setupVrfTableLines` (the source behaviour). -/
def setupVrfTableLinesSortedSpec (s : Router) : List String :=
  (sortByKey s.tableVrfDict).map
    (fun e => toString e.1 ++ " " ++ toString e.2 ++ "\n")

/-- C5 counterexample: re-adding the already-registered VRF `default` with a
different table ID does not fail and does not leave the mapping unchanged —
the source silently overwrites, so `default` now maps to 5, not 0. -/
theorem C5_addVRF_counterexample :
    dictGet? ({ } : Router).vrfDict "default" = some 0 ∧
    (DockerRouter.addVRF { } "default" 5).vrfDict ≠ ({ } : Router).vrfDict ∧
    dictGet? (DockerRouter.addVRF { } "default" 5).vrfDict "default" = some 5 := by
  refine ⟨rfl, ?_, ?_⟩ <;> decide

/-- C5 (amended): `addVRF(name, tableId)` on an already-registered name
silently overwrites: afterwards `name` maps to the new table ID (last write
wins) and every other VRF's mapping is unchanged. -/
theorem C5_addVRF_overwrites (s : Router) (vrfName : String) (tid old : Nat)
    (_hexists : dictGet? s.vrfDict vrfName = some old) :
    dictGet? (DockerRouter.addVRF s vrfName tid).vrfDict vrfName = some tid ∧
    ∀ other, other ≠ vrfName →
      dictGet? (DockerRouter.addVRF s vrfName tid).vrfDict other = dictGet? s.vrfDict other := by
  constructor
  · exact dictGet?_dictSet_self _ _ _
  · intro other hother
    exact dictGet?_dictSet_ne _ _ _ _ (fun h => hother h.symm)

/-- Witness for the amended C5: overwriting `default` (initially 0) with 5
leaves a hypothetical other name's lookup unchanged. -/
theorem C5_addVRF_overwrites_witness :
    dictGet? (DockerRouter.addVRF { } "default" 5).vrfDict "default" = some 5 ∧
    dictGet? (DockerRouter.addVRF { } "default" 5).vrfDict "blue"
      = dictGet? ({ } : Router).vrfDict "blue" :=
  ⟨(C5_addVRF_overwrites { } "default" 5 0 rfl).1,
   (C5_addVRF_overwrites { } "default" 5 0 rfl).2 "blue" (by decide)⟩

/-- C6 counterexample: after `addVRF("red", 10)` on a fresh router the
table-ID-to-VRF-ID file is written in dict insertion order
`254, 255, 10` — not sorted by key, and not equal to the key-sorted output
the spec sentence describes. -/
theorem C6_vrf_table_not_sorted_counterexample :
    setupVrfTableLines (DockerRouter.addVRF { } "red" 10)
      = ["254 0\n", "255 0\n", "10 10\n"] ∧
    ¬ List.Sorted (fun a b => a ≤ b)
        ((DockerRouter.addVRF { } "red" 10).tableVrfDict.map Prod.fst) ∧
    setupVrfTableLines (DockerRouter.addVRF { } "red" 10)
      ≠ setupVrfTableLinesSortedSpec (DockerRouter.addVRF { } "red" 10) := by
  refine ⟨?_, ?_, ?_⟩
  · rfl
  · decide
  · decide

/-- `DockerRouter.addRoutingConfig(protocol=None, configStr="")`: only when a
protocol is given AND the line is nonempty is the line appended to that
protocol's list (`KeyError`, modelled as `none`, if the protocol is not a
registered daemon); in every other case it is appended to `generalConfig`. -/
def DockerRouter.addRoutingConfig (s : Router) (protocol : Option String)
    (configStr : String) : Option Router :=
  if protocol ≠ none ∧ configStr ≠ "" then
    match protocol with
    | some p =>
        match dictGet? s.daemonConfigs p with
        | some lines =>
            some { s with daemonConfigs := dictSet s.daemonConfigs p (lines ++ [configStr]) }
        | none => none
    | none => none
  else
    some { s with generalConfig := s.generalConfig ++ [configStr] }

/-- `DockerRouter.setupRoutingConfigByProtocol(protocol)`: the configuration
text written for one protocol — every accumulated line followed by the
two-character escape `\n` consumed later by `echo -e`, concatenated in list
order (`none` models the `KeyError` on an unregistered protocol). -/
def setupRoutingConfigByProtocolStr (s : Router) (protocol : String) : Option String :=
  (dictGet? s.daemonConfigs protocol).map
    (fun lines => String.join (lines.map (fun l => l ++ "\\n")))

/-- C7 counterexample: calling `addRoutingConfig("bgpd", "")` — a protocol
IS given — does not append the line to bgpd's list; the guard
`configStr != ""` sends the empty line to the general list instead. -/
theorem C7_empty_line_counterexample :
    (DockerRouter.addRoutingConfig { } (some "bgpd") "").map
        (fun s => (dictGet? s.daemonConfigs "bgpd", s.generalConfig))
      = some (some [], [""]) := by
  decide

/-- C7 (amended): when a protocol is given and the line is nonempty, the line
is appended to the end of that protocol's ordered list (a second append lands
after the first); when no protocol is given — or the line is empty — it is
appended to the end of the general list; and materializing a protocol's
configuration file emits that protocol's lines in exactly insertion order. -/
theorem C7_routing_config_append_order (s : Router) (p l1 l2 : String) (old : List String)
    (hk : dictGet? s.daemonConfigs p = some old) (h1 : l1 ≠ "") (h2 : l2 ≠ "") :
    ∃ s1 s2 : Router,
      DockerRouter.addRoutingConfig s (some p) l1 = some s1 ∧
      DockerRouter.addRoutingConfig s1 (some p) l2 = some s2 ∧
      dictGet? s2.daemonConfigs p = some (old ++ [l1, l2]) ∧
      setupRoutingConfigByProtocolStr s2 p
        = some (String.join ((old ++ [l1, l2]).map (fun l => l ++ "\\n"))) ∧
      (∀ (t : Router) (l : String),
        DockerRouter.addRoutingConfig t none l
          = some { t with generalConfig := t.generalConfig ++ [l] }) := by
  refine ⟨{ s with daemonConfigs := dictSet s.daemonConfigs p (old ++ [l1]) },
          { s with daemonConfigs :=
              dictSet (dictSet s.daemonConfigs p (old ++ [l1])) p ((old ++ [l1]) ++ [l2]) },
          ?_, ?_, ?_, ?_, ?_⟩
  · unfold DockerRouter.addRoutingConfig
    rw [if_pos ⟨by simp, h1⟩]
    simp [hk]
  · unfold DockerRouter.addRoutingConfig
    rw [if_pos ⟨by simp, h2⟩]
    simp [dictGet?_dictSet_self]
  · rw [dictGet?_dictSet_self]
    simp
  · unfold setupRoutingConfigByProtocolStr
    rw [dictGet?_dictSet_self]
    simp
  · intro t l
    unfold DockerRouter.addRoutingConfig
    simp

/-- Witness for the amended C7: appending `"router bgp 65000"` then
`"neighbor x"` to `bgpd` on a fresh router materializes both lines in
insertion order. -/
theorem C7_routing_config_append_order_witness :
    ∃ s1 s2 : Router,
      DockerRouter.addRoutingConfig { } (some "bgpd") "router bgp 65000" = some s1 ∧
      DockerRouter.addRoutingConfig s1 (some "bgpd") "neighbor x" = some s2 ∧
      dictGet? s2.daemonConfigs "bgpd" = some (([] : List String) ++
        ["router bgp 65000", "neighbor x"]) ∧
      setupRoutingConfigByProtocolStr s2 "bgpd"
        = some (String.join ((([] : List String) ++ ["router bgp 65000", "neighbor x"]).map
            (fun l => l ++ "\\n"))) ∧
      (∀ (t : Router) (l : String),
        DockerRouter.addRoutingConfig t none l
          = some { t with generalConfig := t.generalConfig ++ [l] }) :=
  C7_routing_config_append_order { } "bgpd" "router bgp 65000" "neighbor x" []
    rfl (by decide) (by decide)

/-- `s.intfStore` read of interface `i` (attribute access on an `Intf`
object; the identity is in the store whenever the source dereferences it). -/
def Router.intfData (s : Router) (i : Nat) : IntfData :=
  (dictGet? s.intfStore i).getD { name := "" }

/-- `intf.setMAC(mac)` on the stored interface object. -/
def Router.setMAC (s : Router) (i : Nat) (mac : String) : Router :=
  { s with intfStore := dictModify s.intfStore i (fun d => { d with mac := some mac }) }

/-- `intf.setIP(ip)` on the stored interface object. -/
def Router.setIP (s : Router) (i : Nat) (ip : String) : Router :=
  { s with intfStore := dictModify s.intfStore i (fun d => { d with ip := some ip }) }

/-- `intf.setVRF(vrf)` on the stored interface object. -/
def Router.setVRF (s : Router) (i : Nat) (vrf : String) : Router :=
  { s with intfStore := dictModify s.intfStore i (fun d => { d with vrf := vrf }) }

/-- `intf.setBDI(bdi)` on the stored interface object (stores whatever value
is passed, as the Python attribute does). -/
def Router.setBDI (s : Router) (i : Nat) (bdi : Option Nat) : Router :=
  { s with intfStore := dictModify s.intfStore i (fun d => { d with bdi := bdi }) }

/-- `DockerRouter.addIntf`: calls the superclass `addIntf` and then registers
the interface as effective: `self.effIntfs[intf.name] = self.ports[intf]`. -/
def DockerRouter.addIntf (s : Router) (i : Nat) (port : Option Nat) : Router :=
  let s' := Node.addIntf s i port
  { s' with effIntfs := dictSet s'.effIntfs (s'.intfName i) ((dictGet? s'.ports i).getD 0) }

/-- Modelled from the spec: the `Intf` constructor lives in the link module,
which is not under src/; per the specification it creates the interface
object and registers it with the owning node (which for a router dispatches
to `DockerRouter.addIntf`, assigning the next free port).  Returns the new
state and the fresh interface identity. -/
def Intf.new (s : Router) (nm : String) : Router × Nat :=
  let i := s.nextIntfId
  let s1 := { s with nextIntfId := i + 1,
                     intfStore := dictSet s.intfStore i { name := nm } }
  (DockerRouter.addIntf s1 i none, i)

/-- Split a character list at the dots of a dotted-quad IP address. -/
def splitOnDot : List Char → List (List Char)
  | [] => [[]]
  | c :: t =>
      let r := splitOnDot t
      if c = '.' then [] :: r
      else
        match r with
        | [] => [[c]]
        | h :: t2 => (c :: h) :: t2

/-- Modelled from the spec: `Subnet.ipToMac` lives in the subnet utility
module, which is not under src/; the spec states the MAC is a deterministic
byte-wise encoding of the IP under a locally-administered prefix. -/
def Subnet.ipToMac (ip : String) : String :=
  "0a:" ++ String.intercalate ":" ((splitOnDot ip.data).map (fun cs => String.mk cs))

/-- `DockerRouter.addL2VNI(vni, brip, devname, brname, vrf)`: creates the
bridge interface (registering it with the node), sets its MAC/IP from the
bridge IP, tags it with the VRF and with BDI = vni, appends the VNI to the
VRF's L2 list, and initializes the broadcast domain's member list to empty.
Shell (`ip link` / `ebtables`) commands are external effects. -/
def DockerRouter.addL2VNI (s : Router) (vni : Nat) (brip : String) (brname : String)
    (vrf : String) : Router :=
  let p := Intf.new s brname
  let brId := p.2
  let s2 := Router.setMAC p.1 brId (Subnet.ipToMac brip)
  let s3 := Router.setIP s2 brId brip
  let s4 := Router.setVRF s3 brId vrf
  let s5 := Router.setBDI s4 brId (some vni)
  let s6 := { s5 with vrfVniDict := dictModify s5.vrfVniDict vrf (fun v => (v.1, v.2 ++ [vni])) }
  { s6 with bdIntfDict := dictSet s6.bdIntfDict ((s6.intfData brId).bdi.getD 0) [] }

/-- `DockerP4Router.addL2VNI`: calls the superclass and removes the bridge
interface from the effective interfaces (`self.effIntfs.pop(brname)`). -/
def DockerP4Router.addL2VNI (s : Router) (vni : Nat) (brip : String) (brname : String)
    (vrf : String) : Router :=
  let s' := DockerRouter.addL2VNI s vni brip brname vrf
  { s' with effIntfs := dictDel s'.effIntfs brname }

/-- `DockerRouter.attachIntfToL2VNI(intfName, vni, brname=None)` with the
default bridge name `"br" + str(vni)`: copies the bridge interface's VRF and
BDI tags onto the target interface and appends the interface to the bridge
domain's member list (`self.bdIntfDict[brIntf.BDI()].append(intf)`). -/
def DockerRouter.attachIntfToL2VNI (s : Router) (intfName : String) (vni : Nat) : Router :=
  let brname := "br" ++ toString vni
  let i := (dictGet? s.nameToIntf intfName).getD 0
  let brId := (dictGet? s.nameToIntf brname).getD 0
  let brD := s.intfData brId
  let s1 := Router.setVRF s i brD.vrf
  let s2 := Router.setBDI s1 i brD.bdi
  { s2 with bdIntfDict := dictModify s2.bdIntfDict (brD.bdi.getD 0) (fun l => l ++ [i]) }

/-- `DockerP4Router.attachIntfToL2VNI`: calls the superclass and installs two
`ebtables` drop rules (external effects; the recorded state is identical). -/
def DockerP4Router.attachIntfToL2VNI (s : Router) (intfName : String) (vni : Nat) : Router :=
  DockerRouter.attachIntfToL2VNI s intfName vni

/-- `DockerRouter.addL3VNI(vni, devname, vrf)`: assigns the VNI as the VRF's
single L3 VNI (`self.vrfVniDict[vrf][0] = vni`); shell commands external. -/
def DockerRouter.addL3VNI (s : Router) (vni : Nat) (vrf : String) : Router :=
  { s with vrfVniDict := dictModify s.vrfVniDict vrf (fun v => (some vni, v.2)) }

/-- Python `str(...)` of an optional string attribute (`None` prints as
`"None"`). -/
def pyStr : Option String → String
  | some x => x
  | none => "None"

/-- Python `str(...)` of an optional integer attribute. -/
def pyStrN : Option Nat → String
  | some n => toString n
  | none => "None"

/-- `self.intfs[port]` followed by attribute reads on the interface object. -/
def Router.intfDataByPort (s : Router) (port : Nat) : IntfData :=
  ((dictGet? s.intfs port).bind (fun i => dictGet? s.intfStore i)).getD { name := "" }

/-- The Ethernet-multicast section of `DockerP4Router.setupStartupTables`:
for every broadcast domain, one `EthernetMcast_FIB` `table_add` whose match
and group are the BDI, and one `mc_mgrp_add` whose port list is built by
appending `str(self.ports[intf]) + " "` for each member interface in list
order. -/
def emcastLines (s : Router) : List String :=
  (s.bdIntfDict.map (fun b =>
    [ "table_add EthernetMcast_FIB l2mcast_forward " ++ toString b.1 ++ " => "
        ++ toString b.1 ++ "\n",
      "mc_mgrp_add " ++ toString b.1 ++ " "
        ++ (b.2.foldl (fun acc i => acc ++ toString ((dictGet? s.ports i).getD 0) ++ " ") "")
        ++ "\n" ])).flatten

/-- The sections of `DockerP4Router.setupStartupTables` written before the
Ethernet-multicast section, with the default table/action names: source-MAC
rewrite for the CPU input port and each effective interface, the
control-plane destination-MAC entry, the two mirroring sessions, the VXLAN
decapsulation entries per VRF (L3 VNI then the L2 VNI list), the VRF
assignment per effective interface and for the CPU output port, and the
bridge-domain assignment per effective interface. -/
def startupPreLines (s : Router) : List String :=
  ([ "table_add SrcMac_RW set_smac " ++ toString s.cpu_input_port ++ " => aa:00:00:00:00:01\n" ]
    ++ s.effIntfs.map (fun e =>
        "table_add SrcMac_RW set_smac " ++ toString e.2 ++ " => "
          ++ pyStr (s.intfDataByPort e.2).mac ++ "\n"))
  ++ [ "table_add DstMac_FIB set_dmac 0.0.0.0 => aa:00:00:00:00:02\n",
       "mirroring_add 819 80\n", "mirroring_add 114 80\n" ]
  ++ (s.vrfVniDict.map (fun v =>
        [ "table_add VxlanDecap_Virtual l3vxlan_decap " ++ s.loopbackIP ++ " "
            ++ pyStrN v.2.1 ++ " =>  " ++ pyStrN v.2.1 ++ " \n" ]
        ++ v.2.2.map (fun l2 =>
            "table_add VxlanDecap_Virtual l2vxlan_decap " ++ s.loopbackIP ++ " "
              ++ toString l2 ++ " => " ++ toString l2 ++ " \n"))).flatten
  ++ s.effIntfs.map (fun e =>
      "table_add SetVrf_Virtual set_vrf " ++ toString e.2 ++ " => "
        ++ toString ((dictGet? s.vrfDict (s.intfDataByPort e.2).vrf).getD 0) ++ "\n")
  ++ [ "table_add SetVrf_Virtual set_vrf " ++ toString s.cpu_output_port ++ " => 0 \n" ]
  ++ s.effIntfs.map (fun e =>
      "table_add SetBD_Virtual set_broadcast_domain " ++ toString e.2 ++ " => "
        ++ pyStrN (s.intfDataByPort e.2).bdi ++ "\n")

/-- `DockerP4Router.setupStartupTables`: the complete line sequence of the
startup-table file — the preceding sections followed by the
Ethernet-multicast section. -/
def startupLines (s : Router) : List String :=
  startupPreLines s ++ emcastLines s

/-- Boolean "line begins with" check used to classify written commands. -/
def strStartsWith (s pat : String) : Bool :=
  pat.data.isPrefixOf s.data

theorem dictGet?_dictModify_self {α β : Type} [DecidableEq α] (d : List (α × β)) (k : α)
    (f : β → β) (v : β) (h : dictGet? d k = some v) :
    dictGet? (dictModify d k f) k = some (f v) := by
  induction d with
  | nil => simp [dictGet?] at h
  | cons hd t ih =>
      obtain ⟨a, b⟩ := hd
      by_cases ha : a = k
      · subst ha
        simp [dictGet?] at h
        simp [dictModify, dictGet?, h]
      · simp [dictGet?, ha] at h
        simp [dictModify, dictGet?, ha, ih h]

theorem dictGet?_dictModify_ne {α β : Type} [DecidableEq α] (d : List (α × β)) (k k' : α)
    (f : β → β) (h : k ≠ k') : dictGet? (dictModify d k f) k' = dictGet? d k' := by
  induction d with
  | nil => simp [dictModify]
  | cons hd t ih =>
      obtain ⟨a, b⟩ := hd
      by_cases ha : a = k
      · subst ha
        simp [dictModify, dictGet?, h]
      · by_cases hb : a = k'
        · simp [dictModify, dictGet?, ha, hb, Ne.symm h]
        · simp [dictModify, dictGet?, ha, hb, ih]

/-- The C3 scenario: a fresh router with two data interfaces named `a` and
`b`, one L2 VNI on VRF `default` with the default bridge name, and `a` then
`b` attached to the VNI's bridge domain. -/
def c3build (a b : String) (vni : Nat) (brip : String) : Router :=
  let s1 := (Intf.new { } a).1
  let s2 := (Intf.new s1 b).1
  let s3 := DockerP4Router.addL2VNI s2 vni brip ("br" ++ toString vni) "default"
  let s4 := DockerP4Router.attachIntfToL2VNI s3 a vni
  DockerP4Router.attachIntfToL2VNI s4 b vni

theorem strPortsHelper (x : String) :
    x ++ " " ++ (toString 0 ++ " " ++ toString 1 ++ " ") ++ "\n" = x ++ " 0 1 \n" := by
  have h : (" " : String) ++ ((toString 0 ++ " " ++ toString 1 ++ " ") ++ "\n") = " 0 1 \n" := rfl
  rw [String.append_assoc, String.append_assoc, h]

/-- C3: on a node with VRF `default` (table 0) and one L2 VNI whose bridge
domain has exactly the two interfaces `a` and `b` attached in that order,
startup-table materialization emits, in its Ethernet-multicast section,
exactly one `EthernetMcast_FIB` `table_add` for the BDI and one `mc_mgrp_add`
whose port list is the ports of `a` and `b` (0 and 1) in attach order; the
startup file is those sections followed by this one, and at a concrete
instance the whole file contains exactly one command of each kind. -/
theorem C3_mcast_group_ports_in_attach_order (a b : String) (vni : Nat) (brip : String)
    (hab : a ≠ b) (ha : a ≠ "br" ++ toString vni) (hb : b ≠ "br" ++ toString vni) :
    (emcastLines (c3build a b vni brip)
      = [ "table_add EthernetMcast_FIB l2mcast_forward " ++ toString vni ++ " => "
            ++ toString vni ++ "\n",
          "mc_mgrp_add " ++ toString vni ++ " 0 1 \n" ] ∧
     dictGet? (c3build a b vni brip).ports 0 = some 0 ∧
     dictGet? (c3build a b vni brip).ports 1 = some 1 ∧
     startupLines (c3build a b vni brip)
      = startupPreLines (c3build a b vni brip) ++ emcastLines (c3build a b vni brip)) ∧
    (startupLines (c3build "r1-eth0" "r1-eth1" 100 "10.0.100.1")).filter
        (fun l => strStartsWith l "table_add EthernetMcast_FIB")
      = ["table_add EthernetMcast_FIB l2mcast_forward 100 => 100\n"] ∧
    (startupLines (c3build "r1-eth0" "r1-eth1" 100 "10.0.100.1")).filter
        (fun l => strStartsWith l "mc_mgrp_add")
      = ["mc_mgrp_add 100 0 1 \n"] := by
  refine ⟨⟨?_, ?_, ?_, rfl⟩, ?_, ?_⟩
  · simp [c3build, Intf.new, DockerRouter.addIntf, Node.addIntf, Node.newPort,
        DockerP4Router.addL2VNI, DockerRouter.addL2VNI, Router.setMAC, Router.setIP,
        Router.setVRF, Router.setBDI, DockerP4Router.attachIntfToL2VNI,
        DockerRouter.attachIntfToL2VNI, Router.intfData, Router.intfName,
        dictGet?, dictSet, dictDel, dictModify, listMax, emcastLines,
        hab, ha, hb, Ne.symm hab, Ne.symm ha, Ne.symm hb, Subnet.ipToMac]
    rw [strPortsHelper]
  · simp [c3build, Intf.new, DockerRouter.addIntf, Node.addIntf, Node.newPort,
        DockerP4Router.addL2VNI, DockerRouter.addL2VNI, Router.setMAC, Router.setIP,
        Router.setVRF, Router.setBDI, DockerP4Router.attachIntfToL2VNI,
        DockerRouter.attachIntfToL2VNI, Router.intfData, Router.intfName,
        dictGet?, dictSet, dictDel, dictModify, listMax,
        hab, ha, hb, Ne.symm hab, Ne.symm ha, Ne.symm hb, Subnet.ipToMac]
  · simp [c3build, Intf.new, DockerRouter.addIntf, Node.addIntf, Node.newPort,
        DockerP4Router.addL2VNI, DockerRouter.addL2VNI, Router.setMAC, Router.setIP,
        Router.setVRF, Router.setBDI, DockerP4Router.attachIntfToL2VNI,
        DockerRouter.attachIntfToL2VNI, Router.intfData, Router.intfName,
        dictGet?, dictSet, dictDel, dictModify, listMax,
        hab, ha, hb, Ne.symm hab, Ne.symm ha, Ne.symm hb, Subnet.ipToMac]
  · decide
  · decide

/-- Witness for C3 at the concrete scenario: interfaces `r1-eth0`, `r1-eth1`,
VNI 100, bridge IP `10.0.100.1`. -/
theorem C3_mcast_group_ports_in_attach_order_witness :
    emcastLines (c3build "r1-eth0" "r1-eth1" 100 "10.0.100.1")
      = [ "table_add EthernetMcast_FIB l2mcast_forward " ++ toString 100 ++ " => "
            ++ toString 100 ++ "\n",
          "mc_mgrp_add " ++ toString 100 ++ " 0 1 \n" ] ∧
    dictGet? (c3build "r1-eth0" "r1-eth1" 100 "10.0.100.1").ports 0 = some 0 ∧
    dictGet? (c3build "r1-eth0" "r1-eth1" 100 "10.0.100.1").ports 1 = some 1 :=
  have h := C3_mcast_group_ports_in_attach_order "r1-eth0" "r1-eth1" 100 "10.0.100.1"
    (by decide) (by decide) (by decide)
  ⟨h.1.1, h.1.2.1, h.1.2.2.1⟩

/-- Attach the named interface to bridge domain `b1`, then to `b2`
(the C4 scenario). -/
def attachTwice (s : Router) (intfName : String) (b1 b2 : Nat) : Router :=
  DockerP4Router.attachIntfToL2VNI (DockerP4Router.attachIntfToL2VNI s intfName b1) intfName b2

/-- The C4 base state: a fresh router with one data interface and two L2
VNIs (100 and 200) on VRF `default`, before any attachment. -/
def c4base : Router :=
  let s1 := (Intf.new { } "r1-eth0").1
  let s2 := DockerP4Router.addL2VNI s1 100 "10.0.100.1" "br100" "default"
  DockerP4Router.addL2VNI s2 200 "10.0.200.1" "br200" "default"

/-- C4 counterexample: attaching `r1-eth0` to bridge domain 100 and then to
bridge domain 200 leaves the interface (identity 0) in BOTH membership
lists — it is not a member of `b2`'s set only, so the at-most-one-bridge-
domain invariant fails on the source (only the interface's own tag moves). -/
theorem C4_membership_counterexample :
    dictGet? (attachTwice c4base "r1-eth0" 100 200).bdIntfDict 100 = some [0] ∧
    dictGet? (attachTwice c4base "r1-eth0" 100 200).bdIntfDict 200 = some [0] ∧
    ((attachTwice c4base "r1-eth0" 100 200).intfData 0).bdi = some 200 := by
  refine ⟨?_, ?_, ?_⟩ <;> decide

/-- C4 (amended): after attaching interface `i` to bridge domain `b1` and
then to `b2`, the interface's own VRF/BDI tags point to `b2`'s bridge, but
the source never detaches: `i` is appended to `b2`'s membership list while
also remaining in `b1`'s, so an interface can be a member of two
bridge-domain membership sets at once. -/
theorem C4_attach_does_not_detach (s : Router) (intfName : String) (i br1 br2 b1 b2 : Nat)
    (d1 d2 di : IntfData) (l1 l2 : List Nat)
    (hni : dictGet? s.nameToIntf intfName = some i)
    (hbr1 : dictGet? s.nameToIntf ("br" ++ toString b1) = some br1)
    (hbr2 : dictGet? s.nameToIntf ("br" ++ toString b2) = some br2)
    (hd1 : dictGet? s.intfStore br1 = some d1) (hd1b : d1.bdi = some b1)
    (hd2 : dictGet? s.intfStore br2 = some d2) (hd2b : d2.bdi = some b2)
    (hdi : dictGet? s.intfStore i = some di)
    (hl1 : dictGet? s.bdIntfDict b1 = some l1)
    (hl2 : dictGet? s.bdIntfDict b2 = some l2)
    (hb12 : b1 ≠ b2) (hi1 : br1 ≠ i) (hi2 : br2 ≠ i) :
    dictGet? (attachTwice s intfName b1 b2).bdIntfDict b1 = some (l1 ++ [i]) ∧
    dictGet? (attachTwice s intfName b1 b2).bdIntfDict b2 = some (l2 ++ [i]) ∧
    ((attachTwice s intfName b1 b2).intfData i).bdi = some b2 ∧
    ((attachTwice s intfName b1 b2).intfData i).vrf = d2.vrf := by
  have e1 : dictGet? (dictModify s.intfStore i (fun d => { d with vrf := d1.vrf })) i
      = some { di with vrf := d1.vrf } :=
    dictGet?_dictModify_self _ _ _ _ hdi
  have e2 : dictGet? (dictModify (dictModify s.intfStore i (fun d => { d with vrf := d1.vrf }))
        i (fun d => { d with bdi := some b1 })) i
      = some { di with vrf := d1.vrf, bdi := some b1 } :=
    dictGet?_dictModify_self _ _ _ _ e1
  have e3 : dictGet? (dictModify (dictModify (dictModify s.intfStore i
          (fun d => { d with vrf := d1.vrf })) i (fun d => { d with bdi := some b1 }))
        i (fun d => { d with vrf := d2.vrf })) i
      = some { di with vrf := d2.vrf, bdi := some b1 } :=
    dictGet?_dictModify_self _ _ _ _ e2
  have e4 : dictGet? (dictModify (dictModify (dictModify (dictModify s.intfStore i
            (fun d => { d with vrf := d1.vrf })) i (fun d => { d with bdi := some b1 }))
          i (fun d => { d with vrf := d2.vrf })) i (fun d => { d with bdi := some b2 })) i
      = some { di with vrf := d2.vrf, bdi := some b2 } :=
    dictGet?_dictModify_self _ _ _ _ e3
  refine ⟨?_, ?_, ?_, ?_⟩ <;>
    simp [attachTwice, DockerP4Router.attachIntfToL2VNI, DockerRouter.attachIntfToL2VNI,
          Router.setVRF, Router.setBDI, Router.intfData,
          hni, hbr1, hbr2, hd1, hd1b, hd2, hd2b, hdi, hl1, hl2, e4,
          dictGet?_dictModify_ne, dictGet?_dictModify_self,
          hb12, Ne.symm hb12, hi1, Ne.symm hi1, hi2, Ne.symm hi2]

/-- Witness for the amended C4 at the concrete two-VNI scenario. -/
theorem C4_attach_does_not_detach_witness :
    dictGet? (attachTwice c4base "r1-eth0" 100 200).bdIntfDict 100 = some ([] ++ [0]) ∧
    dictGet? (attachTwice c4base "r1-eth0" 100 200).bdIntfDict 200 = some ([] ++ [0]) ∧
    ((attachTwice c4base "r1-eth0" 100 200).intfData 0).bdi = some 200 ∧
    ((attachTwice c4base "r1-eth0" 100 200).intfData 0).vrf
      = ({ name := "br200", mac := some "0a:10:0:200:1", ip := some "10.0.200.1",
           vrf := "default", bdi := some 200 } : IntfData).vrf :=
  C4_attach_does_not_detach c4base "r1-eth0" 0 1 2 100 200
    { name := "br100", mac := some "0a:10:0:100:1", ip := some "10.0.100.1",
      vrf := "default", bdi := some 100 }
    { name := "br200", mac := some "0a:10:0:200:1", ip := some "10.0.200.1",
      vrf := "default", bdi := some 200 }
    { name := "r1-eth0" } [] []
    (by decide) (by decide) (by decide) (by decide) (by decide) (by decide) (by decide)
    (by decide) (by decide) (by decide) (by decide) (by decide) (by decide)

/-- C6 (amended): table materialization is deterministic — two nodes with
identical Interface Registry and VRF/Bridge-Domain state produce
byte-identical table files — but the entries are emitted in dictionary
insertion order, not sorted by key. -/
theorem C6_materialization_deterministic (s t : Router)
    (h1 : s.effIntfs = t.effIntfs) (h2 : s.intfs = t.intfs) (h3 : s.intfStore = t.intfStore)
    (h4 : s.ports = t.ports) (h5 : s.vrfDict = t.vrfDict) (h6 : s.vrfVniDict = t.vrfVniDict)
    (h7 : s.bdIntfDict = t.bdIntfDict) (h8 : s.tableVrfDict = t.tableVrfDict)
    (h9 : s.loopbackIP = t.loopbackIP) (h10 : s.cpu_input_port = t.cpu_input_port)
    (h11 : s.cpu_output_port = t.cpu_output_port) (h12 : s.aclConfig = t.aclConfig) :
    setupVrfTableLines s = setupVrfTableLines t ∧
    startupLines s = startupLines t ∧
    setupIntfTableLines s = setupIntfTableLines t ∧
    setupACLLines s = setupACLLines t := by
  refine ⟨?_, ?_, ?_, ?_⟩ <;>
    simp only [setupVrfTableLines, startupLines, startupPreLines, emcastLines,
      Router.intfDataByPort, setupIntfTableLines, setupACLLines,
      h1, h2, h3, h4, h5, h6, h7, h8, h9, h10, h11, h12]

/-- Witness for the amended C6: two routers that differ only in their node
name (a field no table file reads) materialize identical files. -/
theorem C6_materialization_deterministic_witness :
    setupVrfTableLines { name := "r1" } = setupVrfTableLines { name := "r2" } ∧
    startupLines { name := "r1" } = startupLines { name := "r2" } ∧
    setupIntfTableLines { name := "r1" } = setupIntfTableLines { name := "r2" } ∧
    setupACLLines { name := "r1" } = setupACLLines { name := "r2" } :=
  C6_materialization_deterministic { name := "r1" } { name := "r2" }
    rfl rfl rfl rfl rfl rfl rfl rfl rfl rfl rfl rfl

/-- Python's `pat in s` substring test, on character lists. -/
def hasSubList (pat : List Char) : List Char → Bool
  | [] => pat.isEmpty
  | c :: t => pat.isPrefixOf (c :: t) || hasSubList pat t

/-- `"RuntimeCmd" in output` — the acknowledgment test the startup loop
applies to each invocation of the runtime-administration tool. -/
def containsRuntimeCmd (out : String) : Bool :=
  hasSubList "RuntimeCmd".data out.data

/-- The loop guard of `DockerP4Router.start`, negated: the pass succeeded
when all three outputs (startup, subnet, ACL installation) contain
`"RuntimeCmd"`. -/
def passOK (t : String × String × String) : Bool :=
  containsRuntimeCmd t.1 && containsRuntimeCmd t.2.1 && containsRuntimeCmd t.2.2

/-- Observable events of the table-installation phase of
`DockerP4Router.start`: one `installPass` per loop iteration — each
iteration reissues all three installations, recording their outputs — and
the launch of the route mediator after the loop exits. -/
inductive StartEv where
  | installPass : String × String × String → StartEv
  | launchMediator : StartEv
  deriving Repr, DecidableEq

/-- The `while "RuntimeCmd" not in cp1 or ... cp2 or ... cp3` loop: `cp` are
the current outputs (initially `("init","init","init")`), `rs` the outputs
the environment will return for successive passes.  Returns the emitted
events and whether the loop exited (`false` models the loop still spinning
when the supplied outputs run out). -/
def installLoopEvents : (String × String × String) → List (String × String × String) →
    List StartEv × Bool
  | cp, rs =>
    if passOK cp then ([], true)
    else
      match rs with
      | [] => ([], false)
      | t :: rest =>
          let p := installLoopEvents t rest
          (.installPass t :: p.1, p.2)

/-- The installation-then-mediator fragment of `DockerP4Router.start`: run
the retry loop from the initial `"init"` checkpoints; only if it exits (and
a mediator path is configured) is the route mediator launched. -/
def startEvents (rt_mediator : Bool) (rs : List (String × String × String)) : List StartEv :=
  let p := installLoopEvents ("init", "init", "init") rs
  p.1 ++ (if p.2 && rt_mediator then [.launchMediator] else [])

theorem installLoopEvents_no_launch (cp : String × String × String)
    (rs : List (String × String × String)) :
    StartEv.launchMediator ∉ (installLoopEvents cp rs).1 := by
  induction rs generalizing cp with
  | nil =>
      unfold installLoopEvents
      by_cases h : passOK cp = true <;> simp [h]
  | cons t rest ih =>
      unfold installLoopEvents
      by_cases h : passOK cp = true
      · simp [h]
      · simp only [h, Bool.false_eq_true, if_false]
        intro hmem
        rcases List.mem_cons.mp hmem with h' | h'
        · exact StartEv.noConfusion h'
        · exact ih t h'

theorem installLoopEvents_last_pass (cp : String × String × String)
    (rs : List (String × String × String)) (hcp : passOK cp = false)
    (hexit : (installLoopEvents cp rs).2 = true) :
    ∃ pre t, (installLoopEvents cp rs).1 = pre ++ [StartEv.installPass t] ∧
      passOK t = true ∧
      ∀ u, StartEv.installPass u ∈ pre → passOK u = false := by
  induction rs generalizing cp with
  | nil =>
      unfold installLoopEvents at hexit
      simp [hcp] at hexit
  | cons t rest ih =>
      unfold installLoopEvents at hexit ⊢
      simp only [hcp, Bool.false_eq_true, if_false] at hexit ⊢
      by_cases hp : passOK t = true
      · refine ⟨[], t, ?_, hp, by simp⟩
        unfold installLoopEvents
        simp [hp]
      · have hp' : passOK t = false := by
          cases hpt : passOK t
          · rfl
          · exact absurd hpt hp
        obtain ⟨pre, u, heq, hu, hpre⟩ := ih t hp' hexit
        refine ⟨StartEv.installPass t :: pre, u, by simp [heq], hu, ?_⟩
        intro w hw
        rcases List.mem_cons.mp hw with h' | h'
        · cases h'
          exact hp'
        · exact hpre w h'

/-- C8: the route mediator is launched only after an installation pass in
which the outputs of installing all three tables (startup, subnet, ACL)
each contain `"RuntimeCmd"`; the loop reissues all three installations
every pass until that condition holds (every earlier pass has a failing
output), and containing that substring is the sole success criterion. -/
theorem C8_mediator_after_successful_install (rt : Bool)
    (rs : List (String × String × String))
    (h : StartEv.launchMediator ∈ startEvents rt rs) :
    (∃ pre t, startEvents rt rs = pre ++ [StartEv.installPass t, StartEv.launchMediator] ∧
      passOK t = true ∧
      ∀ u, StartEv.installPass u ∈ pre → passOK u = false) ∧
    (∀ v : String × String × String,
      passOK v = true ↔ (containsRuntimeCmd v.1 = true ∧ containsRuntimeCmd v.2.1 = true ∧
        containsRuntimeCmd v.2.2 = true)) := by
  constructor
  · unfold startEvents at h ⊢
    by_cases hb : ((installLoopEvents ("init", "init", "init") rs).2 && rt) = true
    · simp only [hb, if_true] at h ⊢
      have hexit : (installLoopEvents ("init", "init", "init") rs).2 = true := by
        have hb' := hb
        simp only [Bool.and_eq_true] at hb'
        exact hb'.1
      obtain ⟨pre, t, heq, ht, hpre⟩ :=
        installLoopEvents_last_pass ("init", "init", "init") rs (by decide) hexit
      refine ⟨pre, t, ?_, ht, hpre⟩
      rw [heq, List.append_assoc]
      rfl
    · exfalso
      simp only [Bool.not_eq_true] at hb
      simp only [hb, Bool.false_eq_true, if_false, List.append_nil] at h
      exact installLoopEvents_no_launch _ _ h
  · intro v
    unfold passOK
    simp [Bool.and_eq_true, and_assoc]

/-- Witness for C8: a run whose first pass fails and whose second pass has
all three acknowledgments launches the mediator right after that pass. -/
theorem C8_mediator_after_successful_install_witness :
    (∃ pre t,
      startEvents true [("err", "err", "err"),
          ("ok RuntimeCmd", "RuntimeCmd", "xRuntimeCmd done")]
        = pre ++ [StartEv.installPass t, StartEv.launchMediator] ∧
      passOK t = true ∧
      ∀ u, StartEv.installPass u ∈ pre → passOK u = false) ∧
    (∀ v : String × String × String,
      passOK v = true ↔ (containsRuntimeCmd v.1 = true ∧ containsRuntimeCmd v.2.1 = true ∧
        containsRuntimeCmd v.2.2 = true)) :=
  C8_mediator_after_successful_install true
    [("err", "err", "err"), ("ok RuntimeCmd", "RuntimeCmd", "xRuntimeCmd done")]
    (by decide)
